import Mathlib

/-!
Verification of the market-data aggregation and caching layer
(src/tools/market_data.py) of the fund-assistant repository.

The definitions below are a shallow embedding of the Python source:
the cache dict is an association list in insertion order, timestamps
are integers, network-determined adapter behaviour is an explicit
input, and the mock data source is embedded concretely.
-/

set_option maxRecDepth 4000

/-- Result record produced by data sources, mirroring the dataclass
FundNavData (fund_code, fund_name, nav, estimated_nav, change_percent,
update_time, source). Floats are modelled as rationals. -/
structure FundNavData where
  fund_code : String
  fund_name : String
  nav : ℚ
  estimated_nav : ℚ
  change_percent : ℚ
  update_time : String
  source : String
deriving DecidableEq, Repr

/-! ## Cache store (MarketDataService._cache, _get_from_cache, _set_cache)

The Python cache is a dict mapping a string key to (data, timestamp).
Python dicts iterate in insertion order, and assigning to an existing key
keeps its position, so the model is an association list with
update-in-place assignment. -/

/-- The service cache: entries are (key, data, stored-timestamp). -/
abbrev Cache (α : Type) := List (String × α × Int)

/-- Dict lookup: first (and only) binding of a key. -/
def cacheFind {α : Type} : Cache α → String → Option (α × Int)
  | [], _ => none
  | (k0, v, t) :: rest, k => if k0 = k then some (v, t) else cacheFind rest k

/-- Dict deletion (del self._cache[key]): removes the binding of the key. -/
def cacheErase {α : Type} : Cache α → String → Cache α
  | [], _ => []
  | (k0, v, t) :: rest, k =>
    if k0 = k then rest else (k0, v, t) :: cacheErase rest k

/-- Dict assignment (self._cache[key] = (data, ts)): update in place if the
key exists, else append at the end. -/
def cacheAssign {α : Type} : Cache α → String → α → Int → Cache α
  | [], k, v, t => [(k, v, t)]
  | (k0, v0, t0) :: rest, k, v, t =>
    if k0 = k then (k0, v, t) :: rest else (k0, v0, t0) :: cacheAssign rest k v t

/-- self._cache_ttl = 300 (the single TTL used by _get_from_cache). -/
def cacheTTL : Int := 300

/-- MarketDataService._get_from_cache: on a present, fresh entry return the
data; on an expired entry delete it and return none; otherwise none.
The (possibly updated) cache is returned alongside. -/
def getFromCache {α : Type} (c : Cache α) (k : String) (now : Int) :
    Option α × Cache α :=
  match cacheFind c k with
  | some (v, t) => if now - t < cacheTTL then (some v, c) else (none, cacheErase c k)
  | none => (none, c)

/-- min(self._cache.keys(), key=lambda k: self._cache[k][1]) : the first key
in iteration order whose stored timestamp is minimal, with that timestamp. -/
def minTsEntry {α : Type} : Cache α → Option (String × Int)
  | [] => none
  | (k, _, t) :: rest =>
    match minTsEntry rest with
    | none => some (k, t)
    | some (k2, t2) => if t ≤ t2 then some (k, t) else some (k2, t2)

/-- MarketDataService.MAX_CACHE_SIZE. -/
def MAX_CACHE_SIZE : Nat := 100

/-- MarketDataService._set_cache: when the entry count is at or above
MAX_CACHE_SIZE, delete the entry with the smallest stored timestamp,
then assign (key, data, now). -/
def setCache {α : Type} (c : Cache α) (k : String) (v : α) (now : Int) : Cache α :=
  let c2 :=
    if MAX_CACHE_SIZE ≤ c.length then
      match minTsEntry c with
      | some (k0, _) => cacheErase c k0
      | none => c
    else c
  cacheAssign c2 k v now

/-! ## Source order (MarketDataService._get_source_order) -/

/-- Keys of self._sources. -/
def sourceNames : List String := ["eastmoney_mobile", "eastmoney", "akshare", "mock"]

/-- MarketDataService._get_source_order, as a function of the preferred
source and the production flag. -/
def getSourceOrder (preferred : String) (prod : Bool) : List String :=
  if preferred = "mock" then
    if prod then ["eastmoney", "akshare"] else ["mock"]
  else if preferred ∈ sourceNames then
    ([preferred] ++ (["eastmoney", "akshare"].filter (fun n => n ≠ preferred))) ++
      (if prod then [] else ["mock"])
  else
    if prod then ["eastmoney_mobile", "eastmoney", "akshare"]
    else ["eastmoney_mobile", "eastmoney", "akshare", "mock"]

/-! ## Mock data source (MockDataSource) -/

/-- MockDataSource.MOCK_FUNDS (name, nav), navs scaled from the float
literals. -/
def MOCK_FUNDS : List (String × String × ℚ) :=
  [("110011", "易方达中小盘混合", 58234/10000),
   ("161725", "招商中证白酒指数", 17856/10000),
   ("000001", "华夏成长混合", 12341/10000),
   ("519068", "汇添富成长焦点混合", 34521/10000),
   ("163406", "兴全合润混合", 21234/10000)]

/-- Lookup in MOCK_FUNDS. -/
def mockLookup : List (String × String × ℚ) → String → Option (String × ℚ)
  | [], _ => none
  | (k, nm, nv) :: rest, code => if k = code then some (nm, nv) else mockLookup rest code

/-- round(x, 4). -/
def round4 (x : ℚ) : ℚ := ((round (x * 10000) : ℤ) : ℚ) / 10000

/-- round(x, 2). -/
def round2 (x : ℚ) : ℚ := ((round (x * 100) : ℤ) : ℚ) / 100

/-- MockDataSource.get_fund_nav: fabricated data. The two random.random()
draws and the formatted current time are explicit inputs. The source
field is always "mock". -/
def mockGetFundNav (randNav randChange : ℚ) (timeStr : String) (code : String) :
    FundNavData :=
  let info := (mockLookup MOCK_FUNDS code).getD ("基金" ++ code, 1 + randNav)
  let nav := info.2
  let change := (randChange - 1/2) * 4
  let estimated := nav * (1 + change / 100)
  { fund_code := code
    fund_name := info.1
    nav := round4 nav
    estimated_nav := round4 estimated
    change_percent := round2 change
    update_time := timeStr
    source := "mock" }

/-! ## Health accounting (MarketDataService._source_status) -/

/-- One entry of self._source_status. -/
structure SourceStatus where
  status : String
  last_success : Option Int
  last_error : Option String
  error_count : Nat
deriving DecidableEq, Repr

/-- The status table, as a map from source name to its entry. -/
abbrev StatusMap := String → SourceStatus

/-- The initial self._source_status: mock starts "ok", the rest "unknown". -/
def initStatus : StatusMap := fun name =>
  if name = "mock" then
    { status := "ok", last_success := none, last_error := none, error_count := 0 }
  else
    { status := "unknown", last_success := none, last_error := none, error_count := 0 }

/-- Lines 1374-1377 of get_fund_nav: on non-empty success record
last_success = now, status = "ok", error_count = 0. -/
def recordSuccess (m : StatusMap) (name : String) (now : Int) : StatusMap :=
  fun n =>
    if n = name then
      { m n with last_success := some now, status := "ok", error_count := 0 }
    else m n

/-- Lines 1382-1386 of get_fund_nav: on a raised attempt record last_error,
increment error_count, and flip status to "error" once the count is >= 3. -/
def recordFailure (m : StatusMap) (name : String) (e : String) : StatusMap :=
  fun n =>
    if n = name then
      let c := (m n).error_count + 1
      { m n with
        last_error := some e
        error_count := c
        status := if 3 ≤ c then "error" else (m n).status }
    else m n

/-! ## The fallback loop of get_fund_nav (lines 1363-1386)

An attempt on a real adapter is decided by the network; it is modelled as
an explicit behaviour input: the adapter either raises or returns an
optional result (None = empty). The mock source is concrete code of the
repository and is embedded concretely. -/

/-- Outcome of one adapter call: a raised exception or a returned
optional result. -/
inductive Outcome (α : Type) where
  | raised (e : String)
  | ret (r : Option α)
deriving DecidableEq, Repr

/-- source.get_fund_nav(fund_code) for a source name: the mock source is
the embedded MockDataSource, real sources follow the behaviour input. -/
def callSource (behav : String → Outcome FundNavData) (randNav randChange : ℚ)
    (timeStr code : String) (name : String) : Outcome FundNavData :=
  if name = "mock" then .ret (some (mockGetFundNav randNav randChange timeStr code))
  else behav name

/-- The for-loop of get_fund_nav over the source order: returns the first
non-empty result (updating health state), the final status map, and the
trace of source names actually invoked. A raised attempt on a real
adapter records the failure and continues; an empty result continues
with no health update; a non-empty result on a real adapter records the
success and stops. -/
def navLoop (behav : String → Outcome FundNavData) (randNav randChange : ℚ)
    (timeStr code : String) (now : Int) :
    List String → StatusMap → Option FundNavData × StatusMap × List String
  | [], m => (none, m, [])
  | name :: rest, m =>
    if name ∈ sourceNames then
      match callSource behav randNav randChange timeStr code name with
      | .ret (some v) =>
        let m2 := if name = "mock" then m else recordSuccess m name now
        (some v, m2, [name])
      | .ret none =>
        let p := navLoop behav randNav randChange timeStr code now rest m
        (p.1, p.2.1, name :: p.2.2)
      | .raised e =>
        let m2 := if name = "mock" then m else recordFailure m name e
        let p := navLoop behav randNav randChange timeStr code now rest m2
        (p.1, p.2.1, name :: p.2.2)
    else navLoop behav randNav randChange timeStr code now rest m

/-- The mutable state of MarketDataService touched by get_fund_nav. -/
structure NavState where
  cache : Cache FundNavData
  status : StatusMap

/-- The cache key f"nav_{fund_code}". -/
def navKey (code : String) : String := "nav_" ++ code

/-- Lines 1363-1393 of get_fund_nav (the path taken on a cache miss): run
the fallback loop; on success cache the result via _set_cache and return
it; on exhaustion return the mock source output, uncached. -/
def getFundNavMiss (prod : Bool) (preferred : String)
    (behav : String → Outcome FundNavData) (randNav randChange : ℚ)
    (timeStr : String) (now : Int) (code : String) (st : NavState) :
    FundNavData × NavState × List String :=
  let p := navLoop behav randNav randChange timeStr code now
    (getSourceOrder preferred prod) st.status
  match p.1 with
  | some v =>
    (v, { cache := setCache st.cache (navKey code) v now, status := p.2.1 }, p.2.2)
  | none =>
    (mockGetFundNav randNav randChange timeStr code,
     { cache := st.cache, status := p.2.1 }, p.2.2)

/-- MarketDataService.get_fund_nav (lines 1355-1393): cache hit returns the
cached value with no adapter invoked; otherwise the fallback path runs. -/
def getFundNav (prod : Bool) (preferred : String)
    (behav : String → Outcome FundNavData) (randNav randChange : ℚ)
    (timeStr : String) (now : Int) (code : String) (st : NavState) :
    FundNavData × NavState × List String :=
  match getFromCache st.cache (navKey code) now with
  | (some v, c2) => (v, { st with cache := c2 }, [])
  | (none, c2) =>
    getFundNavMiss prod preferred behav randNav randChange timeStr now code
      { st with cache := c2 }

/-! ## The other single-item facade operations

get_fund_details (1523-1540), get_intraday_valuation (1542-1560),
get_historical_nav (1562-1580), get_historical_yield (1582-1599) and
get_fund_diagnostic (1601-1619) share the same loop shape: try each
source in order, swallow exceptions, stop at the first non-empty result;
none of them touches _source_status. They differ in the cache key and in
how the result is written back: get_fund_details goes through _set_cache,
while the other four assign self._cache[key] directly, the historical and
yield paths storing timestamp()+3600 and the diagnostic path storing
timestamp()+86400. On all of these capabilities MockDataSource (or the
DataSourceBase default it inherits) returns None. -/

/-- The for-loop shared by the status-less operations: first non-empty
result plus the trace of invoked source names. The mock source returns
None on these capabilities. -/
def fetchLoop {α : Type} (behav : String → Outcome α) :
    List String → Option α × List String
  | [] => (none, [])
  | name :: rest =>
    if name ∈ sourceNames then
      match (if name = "mock" then Outcome.ret (none : Option α) else behav name) with
      | .ret (some v) => (some v, [name])
      | .ret none =>
        let p := fetchLoop behav rest
        (p.1, name :: p.2)
      | .raised _ =>
        let p := fetchLoop behav rest
        (p.1, name :: p.2)
    else fetchLoop behav rest

/-- The cache key f"detail_{fund_code}". -/
def detailKey (code : String) : String := "detail_" ++ code

/-- The cache key f"intraday_{fund_code}". -/
def intradayKey (code : String) : String := "intraday_" ++ code

/-- The cache key f"history_data_{fund_code}_{range_type}". -/
def histKey (code rt : String) : String := "history_data_" ++ code ++ "_" ++ rt

/-- The cache key f"yield_{fund_code}_{range_type}". -/
def yieldKey (code rt : String) : String := "yield_" ++ code ++ "_" ++ rt

/-- The cache key f"diagnostic_{fund_code}". -/
def diagKey (code : String) : String := "diagnostic_" ++ code

/-- get_fund_details on a cache miss: loop, then write back via _set_cache. -/
def detailsMiss {α : Type} (prod : Bool) (preferred : String)
    (behav : String → Outcome α) (now : Int) (code : String) (c : Cache α) :
    Option α × Cache α × List String :=
  match fetchLoop behav (getSourceOrder preferred prod) with
  | (some v, tr) => (some v, setCache c (detailKey code) v now, tr)
  | (none, tr) => (none, c, tr)

/-- MarketDataService.get_fund_details (lines 1523-1540). -/
def getFundDetails {α : Type} (prod : Bool) (preferred : String)
    (behav : String → Outcome α) (now : Int) (code : String) (c : Cache α) :
    Option α × Cache α × List String :=
  match getFromCache c (detailKey code) now with
  | (some v, c2) => (some v, c2, [])
  | (none, c2) => detailsMiss prod preferred behav now code c2

/-- get_intraday_valuation on a cache miss: loop, then assign
self._cache[key] = (result, timestamp()) directly (line 1556), bypassing
_set_cache. -/
def intradayMiss {α : Type} (prod : Bool) (preferred : String)
    (behav : String → Outcome α) (now : Int) (code : String) (c : Cache α) :
    Option α × Cache α × List String :=
  match fetchLoop behav (getSourceOrder preferred prod) with
  | (some v, tr) => (some v, cacheAssign c (intradayKey code) v now, tr)
  | (none, tr) => (none, c, tr)

/-- MarketDataService.get_intraday_valuation (lines 1542-1560). -/
def getIntradayValuation {α : Type} (prod : Bool) (preferred : String)
    (behav : String → Outcome α) (now : Int) (code : String) (c : Cache α) :
    Option α × Cache α × List String :=
  match getFromCache c (intradayKey code) now with
  | (some v, c2) => (some v, c2, [])
  | (none, c2) => intradayMiss prod preferred behav now code c2

/-- get_historical_nav on a cache miss: loop, then assign
self._cache[key] = (result, timestamp() + 3600) directly (line 1576). -/
def historyMiss {α : Type} (prod : Bool) (preferred : String)
    (behav : String → Outcome α) (now : Int) (code rt : String) (c : Cache α) :
    Option α × Cache α × List String :=
  match fetchLoop behav (getSourceOrder preferred prod) with
  | (some v, tr) => (some v, cacheAssign c (histKey code rt) v (now + 3600), tr)
  | (none, tr) => (none, c, tr)

/-- MarketDataService.get_historical_nav (lines 1562-1580). -/
def getHistoricalNav {α : Type} (prod : Bool) (preferred : String)
    (behav : String → Outcome α) (now : Int) (code rt : String) (c : Cache α) :
    Option α × Cache α × List String :=
  match getFromCache c (histKey code rt) now with
  | (some v, c2) => (some v, c2, [])
  | (none, c2) => historyMiss prod preferred behav now code rt c2

/-- get_historical_yield on a cache miss: loop, then assign
self._cache[key] = (result, timestamp() + 3600) directly (line 1595). -/
def yieldMiss {α : Type} (prod : Bool) (preferred : String)
    (behav : String → Outcome α) (now : Int) (code rt : String) (c : Cache α) :
    Option α × Cache α × List String :=
  match fetchLoop behav (getSourceOrder preferred prod) with
  | (some v, tr) => (some v, cacheAssign c (yieldKey code rt) v (now + 3600), tr)
  | (none, tr) => (none, c, tr)

/-- MarketDataService.get_historical_yield (lines 1582-1599). -/
def getHistoricalYield {α : Type} (prod : Bool) (preferred : String)
    (behav : String → Outcome α) (now : Int) (code rt : String) (c : Cache α) :
    Option α × Cache α × List String :=
  match getFromCache c (yieldKey code rt) now with
  | (some v, c2) => (some v, c2, [])
  | (none, c2) => yieldMiss prod preferred behav now code rt c2

/-- get_fund_diagnostic on a cache miss: loop, then assign
self._cache[key] = (result, timestamp() + 86400) directly (line 1615). -/
def diagnosticMiss {α : Type} (prod : Bool) (preferred : String)
    (behav : String → Outcome α) (now : Int) (code : String) (c : Cache α) :
    Option α × Cache α × List String :=
  match fetchLoop behav (getSourceOrder preferred prod) with
  | (some v, tr) => (some v, cacheAssign c (diagKey code) v (now + 86400), tr)
  | (none, tr) => (none, c, tr)

/-- MarketDataService.get_fund_diagnostic (lines 1601-1619). -/
def getFundDiagnostic {α : Type} (prod : Bool) (preferred : String)
    (behav : String → Outcome α) (now : Int) (code : String) (c : Cache α) :
    Option α × Cache α × List String :=
  match getFromCache c (diagKey code) now with
  | (some v, c2) => (some v, c2, [])
  | (none, c2) => diagnosticMiss prod preferred behav now code c2

/-! ## Batch valuation (MarketDataService.get_funds_nav, lines 1463-1521) -/

/-- Association-list update-or-append, modelling results[code] = data on a
Python dict. -/
def assocSet {α : Type} : List (String × α) → String → α → List (String × α)
  | [], k, v => [(k, v)]
  | (k0, v0) :: rest, k, v =>
    if k0 = k then (k0, v) :: rest else (k0, v0) :: assocSet rest k v

/-- Association-list lookup. -/
def assocFind {α : Type} : List (String × α) → String → Option α
  | [], _ => none
  | (k0, v) :: rest, k => if k0 = k then some v else assocFind rest k

/-- Lines 1472-1478: scan the requested codes against the cache, splitting
hits from missing codes while threading the cache (expired entries are
deleted by _get_from_cache). -/
def scanCache (now : Int) :
    List String → Cache FundNavData →
    List (String × FundNavData) × List String × Cache FundNavData
  | [], c => ([], [], c)
  | code :: rest, c =>
    match getFromCache c (navKey code) now with
    | (some v, c2) =>
      let p := scanCache now rest c2
      ((code, v) :: p.1, p.2.1, p.2.2)
    | (none, c2) =>
      let p := scanCache now rest c2
      (p.1, code :: p.2.1, p.2.2)

/-- remaining_missing.remove(code): drop the (single) occurrence of a code. -/
def removeCode : List String → String → List String
  | [], _ => []
  | x :: rest, code => if x = code then rest else x :: removeCode rest code

/-- Lines 1501-1506: fold one batch response into results/remaining/cache:
each non-None entry is cached via _set_cache, recorded, and removed from
the remaining codes. -/
def applyBatch (now : Int) :
    List (String × Option FundNavData) → List String → Cache FundNavData →
    List (String × FundNavData) →
    List (String × FundNavData) × List String × Cache FundNavData
  | [], rem, c, acc => (acc, rem, c)
  | (_, none) :: rest, rem, c, acc => applyBatch now rest rem c acc
  | (code, some d) :: rest, rem, c, acc =>
    applyBatch now rest (removeCode rem code) (setCache c (navKey code) d now)
      (assocSet acc code d)

/-- Lines 1491-1508: try each source in order with one batch call over the
still-missing codes, stopping once nothing is missing; a raised call is
swallowed and the loop continues. The trace records each batch adapter
call with the codes it was asked for. -/
def batchRounds
    (bbehav : String → List String → Except String (List (String × Option FundNavData)))
    (now : Int) :
    List String → List String → Cache FundNavData → List (String × FundNavData) →
    List (String × List String) →
    List (String × FundNavData) × List String × Cache FundNavData ×
      List (String × List String)
  | [], rem, c, acc, tr => (acc, rem, c, tr)
  | name :: rest, rem, c, acc, tr =>
    if rem.isEmpty then (acc, rem, c, tr)
    else if name ∈ sourceNames then
      match bbehav name rem with
      | .error _ => batchRounds bbehav now rest rem c acc (tr ++ [(name, rem)])
      | .ok items =>
        let p := applyBatch now items rem c acc
        batchRounds bbehav now rest p.2.1 p.2.2 p.1 (tr ++ [(name, rem)])
    else batchRounds bbehav now rest rem c acc tr

/-- MarketDataService.get_funds_nav (lines 1463-1521): serve cached codes,
issue batch calls for the missing ones, fill the still-missing from the
mock source (whose base-class batch loops mockGetFundNav per code, with
per-code random draws given by randF), and answer every requested code
(None when absent). The Python remaining set is modelled as a list in
first-encounter order. -/
def getFundsNav (prod : Bool) (preferred : String)
    (bbehav : String → List String → Except String (List (String × Option FundNavData)))
    (randF : String → ℚ × ℚ) (timeStr : String) (now : Int)
    (codes : List String) (c : Cache FundNavData) :
    List (String × Option FundNavData) × Cache FundNavData ×
      List (String × List String) :=
  if codes.isEmpty then ([], c, [])
  else
    let s := scanCache now codes c
    if s.2.1.isEmpty then
      (codes.map (fun code => (code, assocFind s.1 code)), s.2.2, [])
    else
      let b := batchRounds bbehav now (getSourceOrder preferred prod) s.2.1 s.2.2 s.1 []
      let acc2 :=
        if b.2.1.isEmpty then b.1
        else b.2.1.foldl
          (fun a code =>
            assocSet a code (mockGetFundNav (randF code).1 (randF code).2 timeStr code))
          b.1
      (codes.map (fun code => (code, assocFind acc2 code)), b.2.2.1, b.2.2.2)

/-! ## Adapter-level fetch (EastMoneyDataSource.get_fund_nav, lines 410-434,
and EastmoneyMobileDataSource.get_fund_nav, lines 470-507)

Each adapter wraps its whole body in try/except Exception and returns
None from the except clause. The network-determined stages are an
explicit input: the HTTP call can raise (connection error), parsing can
raise (malformed response), the response can fail to match the expected
shape (no data), or a payload is extracted. -/

/-- Fields extracted from the web (jsonpgz) payload, after defaulting. -/
structure EmPayload where
  fundcode : Option String
  name : Option String
  dwjz : ℚ
  gsz : ℚ
  gszzl : ℚ
  gztime : String
deriving DecidableEq, Repr

/-- What the upstream interaction produced for one adapter call. -/
inductive EmResp where
  | connError (e : String)
  | malformed (e : String)
  | noMatch
  | payload (p : EmPayload)
deriving DecidableEq, Repr

/-- The try-block of EastMoneyDataSource.get_fund_nav: raising stages
are Except.error, an unmatched response yields None, a payload yields a
normalized FundNavData with source "eastmoney". -/
def emFetchBody (code : String) (resp : EmResp) :
    Except String (Option FundNavData) :=
  match resp with
  | .connError e => .error e
  | .malformed e => .error e
  | .noMatch => .ok none
  | .payload p =>
    .ok (some
      { fund_code := p.fundcode.getD code
        fund_name := p.name.getD ("基金" ++ code)
        nav := p.dwjz
        estimated_nav := p.gsz
        change_percent := p.gszzl
        update_time := p.gztime
        source := "eastmoney" })

/-- except Exception: return None (lines 432-433). -/
def swallowToNone (body : Except String (Option FundNavData)) : Option FundNavData :=
  match body with
  | .ok r => r
  | .error _ => none

/-- EastMoneyDataSource.get_fund_nav as a whole. -/
def emGetFundNav (code : String) (resp : EmResp) : Option FundNavData :=
  swallowToNone (emFetchBody code resp)

/-- The observable behaviour of EastMoneyDataSource.get_fund_nav at the
call boundary: the except clause spans the entire body, so the function
always returns normally. -/
def emGetFundNavRun (code : String) (resp : EmResp) :
    Except String (Option FundNavData) :=
  .ok (emGetFundNav code resp)

/-- Fields extracted from the mobile-API payload, before defaulting:
NAV/GSZ/GSZZL may be null, GZTIME may be null with an Expansion fallback. -/
structure MobPayload where
  fcode : Option String
  shortname : Option String
  nav : Option ℚ
  gsz : Option ℚ
  gszzl : Option ℚ
  gztime : Option String
  expansionGztime : Option String
deriving DecidableEq, Repr

/-- What the mobile upstream interaction produced. -/
inductive MobResp where
  | connError (e : String)
  | malformed (e : String)
  | noDatas
  | payload (p : MobPayload)
deriving DecidableEq, Repr

/-- The try-block of EastmoneyMobileDataSource.get_fund_nav: null fields
are defaulted as in lines 489-503, an empty Datas list yields None,
raising stages are Except.error. -/
def emMobileFetchBody (code : String) (resp : MobResp) :
    Except String (Option FundNavData) :=
  match resp with
  | .connError e => .error e
  | .malformed e => .error e
  | .noDatas => .ok none
  | .payload p =>
    let nav := p.nav.getD 0
    .ok (some
      { fund_code := p.fcode.getD code
        fund_name := p.shortname.getD ("基金" ++ code)
        nav := nav
        estimated_nav := p.gsz.getD nav
        change_percent := p.gszzl.getD 0
        update_time := p.gztime.getD (p.expansionGztime.getD "")
        source := "eastmoney_mobile" })

/-- EastmoneyMobileDataSource.get_fund_nav as a whole (the except clause
at lines 504-506 returns None). -/
def emMobileGetFundNav (code : String) (resp : MobResp) : Option FundNavData :=
  swallowToNone (emMobileFetchBody code resp)

/-- The observable behaviour of EastmoneyMobileDataSource.get_fund_nav:
it always returns normally. -/
def emMobileGetFundNavRun (code : String) (resp : MobResp) :
    Except String (Option FundNavData) :=
  .ok (emMobileGetFundNav code resp)

/-! ## Helper lemmas about the cache store -/

theorem length_cacheAssign_le {α : Type} (c : Cache α) (k : String) (v : α) (t : Int) :
    (cacheAssign c k v t).length ≤ c.length + 1 := by
  induction c with
  | nil => simp [cacheAssign]
  | cons e rest ih =>
    obtain ⟨k0, v0, t0⟩ := e
    by_cases h : k0 = k <;> simp [cacheAssign, h]
    exact Nat.le_trans ih (by omega)

theorem length_cacheErase_of_find {α : Type} (c : Cache α) (k : String)
    (h : (cacheFind c k).isSome) : (cacheErase c k).length + 1 = c.length := by
  induction c with
  | nil => simp [cacheFind] at h
  | cons e rest ih =>
    obtain ⟨k0, v0, t0⟩ := e
    by_cases hk : k0 = k
    · simp [cacheErase, hk]
    · simp [cacheFind, hk] at h
      simp [cacheErase, hk, ih h]

theorem minTsEntry_isSome {α : Type} (c : Cache α) (h : c ≠ []) :
    ∃ kt, minTsEntry c = some kt := by
  cases c with
  | nil => exact absurd rfl h
  | cons e rest =>
    obtain ⟨k, v, t⟩ := e
    cases h2 : minTsEntry rest with
    | none => exact ⟨(k, t), by simp [minTsEntry, h2]⟩
    | some kt2 =>
      obtain ⟨k2, t2⟩ := kt2
      by_cases hle : t ≤ t2
      · exact ⟨(k, t), by simp [minTsEntry, h2, hle]⟩
      · exact ⟨(k2, t2), by simp [minTsEntry, h2, hle]⟩

theorem minTsEntry_mem {α : Type} (c : Cache α) (k : String) (t : Int)
    (h : minTsEntry c = some (k, t)) : ∃ v, (k, v, t) ∈ c := by
  induction c with
  | nil => simp [minTsEntry] at h
  | cons e rest ih =>
    obtain ⟨k0, v0, t0⟩ := e
    cases h2 : minTsEntry rest with
    | none =>
      simp [minTsEntry, h2] at h
      exact ⟨v0, by simp [h.1, h.2]⟩
    | some kt2 =>
      obtain ⟨k2, t2⟩ := kt2
      by_cases hle : t0 ≤ t2
      · simp [minTsEntry, h2, hle] at h
        exact ⟨v0, by simp [h.1, h.2]⟩
      · simp [minTsEntry, h2, hle] at h
        obtain ⟨v, hv⟩ := ih (h.1 ▸ h.2 ▸ h2)
        exact ⟨v, List.mem_cons_of_mem _ hv⟩

theorem minTsEntry_le {α : Type} (c : Cache α) (k : String) (t : Int)
    (h : minTsEntry c = some (k, t)) : ∀ e ∈ c, t ≤ e.2.2 := by
  induction c generalizing k t with
  | nil => simp
  | cons e0 rest ih =>
    obtain ⟨k0, v0, t0⟩ := e0
    intro e he
    cases h2 : minTsEntry rest with
    | none =>
      simp [minTsEntry, h2] at h
      cases rest with
      | nil =>
        simp at he
        simp [he, ← h.2]
      | cons x xs =>
        exfalso
        obtain ⟨kt, hkt⟩ := minTsEntry_isSome (x :: xs) (by simp)
        simp [hkt] at h2
    | some kt2 =>
      obtain ⟨k2, t2⟩ := kt2
      by_cases hle : t0 ≤ t2
      · simp [minTsEntry, h2, hle] at h
        rcases List.mem_cons.mp he with he0 | heRest
        · simp [he0, ← h.2]
        · have h3 := ih k2 t2 h2 e heRest
          calc t = t0 := h.2.symm
            _ ≤ t2 := hle
            _ ≤ e.2.2 := h3
      · simp [minTsEntry, h2, hle] at h
        rcases List.mem_cons.mp he with he0 | heRest
        · have ht : t = t2 := h.2.symm
          simp [he0]
          omega
        · exact ih k t (by rw [h2, h.1, h.2]) e heRest

theorem cacheFind_isSome_of_mem {α : Type} (c : Cache α) (k : String) (v : α) (t : Int)
    (h : (k, v, t) ∈ c) : (cacheFind c k).isSome := by
  induction c with
  | nil => simp at h
  | cons e rest ih =>
    obtain ⟨k0, v0, t0⟩ := e
    by_cases hk : k0 = k
    · simp [cacheFind, hk]
    · rcases List.mem_cons.mp h with he | hr
      · exact absurd (congrArg Prod.fst he).symm hk
      · simp [cacheFind, hk]
        exact ih hr

theorem length_setCache_le {α : Type} (c : Cache α) (k : String) (v : α) (now : Int)
    (h : c.length ≤ MAX_CACHE_SIZE) :
    (setCache c k v now).length ≤ MAX_CACHE_SIZE := by
  unfold setCache
  by_cases hfull : MAX_CACHE_SIZE ≤ c.length
  · have hlen : c.length = MAX_CACHE_SIZE := Nat.le_antisymm h hfull
    have hne : c ≠ [] := by
      intro hc
      rw [hc] at hlen
      simp [MAX_CACHE_SIZE] at hlen
    obtain ⟨⟨k0, t0⟩, hmin⟩ := minTsEntry_isSome c hne
    obtain ⟨v0, hmem⟩ := minTsEntry_mem c k0 t0 hmin
    have hfind := cacheFind_isSome_of_mem c k0 v0 t0 hmem
    have herase := length_cacheErase_of_find c k0 hfind
    simp only [hfull, if_pos, hmin]
    have := length_cacheAssign_le (cacheErase c k0) k v now
    omega
  · simp only [hfull, if_neg, not_false_iff]
    have := length_cacheAssign_le c k v now
    omega

theorem length_foldl_setCache_le {α : Type} (ops : List (String × α × Int))
    (c : Cache α) (h : c.length ≤ MAX_CACHE_SIZE) :
    (ops.foldl (fun acc p => setCache acc p.1 p.2.1 p.2.2) c).length ≤ MAX_CACHE_SIZE := by
  induction ops generalizing c with
  | nil => exact h
  | cons p rest ih =>
    exact ih (setCache c p.1 p.2.1 p.2.2) (length_setCache_le c p.1 p.2.1 p.2.2 h)

/-! ## Shared concrete material for theorems and witnesses -/

/-- The three real (network-backed) source names. -/
def realSourceNames : List String := ["eastmoney_mobile", "eastmoney", "akshare"]

/-- A concrete FundNavData sample used as an adapter result in witnesses. -/
def sampleNav : FundNavData :=
  { fund_code := "007339"
    fund_name := "样例基金"
    nav := 15/10
    estimated_nav := 151/100
    change_percent := 2/3
    update_time := "2024-06-01 15:00"
    source := "eastmoney" }

/-- One get_historical_nav call with a succeeding first adapter, keeping
only the cache. -/
def histStep (c : Cache Unit) (code : String) : Cache Unit :=
  (getHistoricalNav true "auto" (fun _ => Outcome.ret (some ())) 0 code "y" c).2.1

/-- n get_historical_nav calls on n distinct fund codes. -/
def histRun : Nat → Cache Unit
  | 0 => []
  | n + 1 => histStep (histRun n) (Nat.repr n)

/-! Sanity examples (concrete evaluations of the embedding). -/

example : getSourceOrder "auto" true = ["eastmoney_mobile", "eastmoney", "akshare"] := by
  decide

example : getSourceOrder "auto" false =
    ["eastmoney_mobile", "eastmoney", "akshare", "mock"] := by decide

example : getSourceOrder "eastmoney" true = ["eastmoney", "akshare"] := by decide

example : getSourceOrder "mock" true = ["eastmoney", "akshare"] := by decide

example : (histRun 3).length = 3 := by decide

/-! ## Claim theorems -/

/-- Claim C1 (code bug): in production mode with every real adapter
returning an empty result, get_fund_nav does NOT return a no-data result:
line 1393 falls back to the mock source unconditionally, so the returned
value is exactly the mock adapter output and its source field is "mock",
even though all three real adapters were attempted. This contradicts the
claim and the constructor docstring (production mode forbids mock
fallback). -/
theorem prod_exhaustion_serves_mock :
    (getFundNav true "auto" (fun _ => Outcome.ret none) 0 0 "" 0 "161725"
      ⟨[], initStatus⟩).1 = mockGetFundNav 0 0 "" "161725" ∧
    (getFundNav true "auto" (fun _ => Outcome.ret none) 0 0 "" 0 "161725"
      ⟨[], initStatus⟩).1.source = "mock" ∧
    (getFundNav true "auto" (fun _ => Outcome.ret none) 0 0 "" 0 "161725"
      ⟨[], initStatus⟩).2.2 = ["eastmoney_mobile", "eastmoney", "akshare"] :=
  ⟨rfl, rfl, rfl⟩

/-- Claim C4 (code bug): on exhaustion (all eligible adapters raising, in
production) get_fund_nav does not return an unavailable/no-data value: it
returns the mock adapter's fabricated record (source "mock"), while
get_fund_details in the same situation does return None without
propagating the exception. -/
theorem exhaustion_not_unavailable :
    (getFundNav true "auto" (fun _ => Outcome.raised "connection refused") 0 0 "" 0
      "110011" ⟨[], initStatus⟩).1 = mockGetFundNav 0 0 "" "110011" ∧
    (getFundNav true "auto" (fun _ => Outcome.raised "connection refused") 0 0 "" 0
      "110011" ⟨[], initStatus⟩).1.source = "mock" ∧
    (getFundDetails true "auto" (fun _ => Outcome.raised "connection refused") 0
      "110011" ([] : Cache Unit)).1 = none :=
  ⟨rfl, rfl, rfl⟩

/-- Claim C2 counterexample: 101 get_historical_nav calls on 101 distinct
fund codes leave 101 entries in the cache, exceeding MAX_CACHE_SIZE =
100, because line 1576 assigns self._cache[key] directly instead of going
through _set_cache. -/
theorem cache_ceiling_exceeded :
    (histRun 101).length = 101 ∧ MAX_CACHE_SIZE < (histRun 101).length := by
  decide

/-- Claim C2 (amended): insertions that go through _set_cache never push
the entry count above MAX_CACHE_SIZE, and the entry _set_cache removes
under capacity pressure is one whose stored timestamp is minimal in the
whole cache. -/
theorem setCache_ceiling_and_min_eviction :
    (∀ (α : Type) (ops : List (String × α × Int)),
      (ops.foldl (fun acc p => setCache acc p.1 p.2.1 p.2.2) []).length ≤ MAX_CACHE_SIZE) ∧
    (∀ (α : Type) (c : Cache α) (k : String) (v : α) (now : Int),
      c.length ≤ MAX_CACHE_SIZE → (setCache c k v now).length ≤ MAX_CACHE_SIZE) ∧
    (∀ (α : Type) (c : Cache α) (k : String) (t : Int),
      minTsEntry c = some (k, t) → (∃ v, (k, v, t) ∈ c) ∧ ∀ e ∈ c, t ≤ e.2.2) := by
  refine ⟨?_, ?_, ?_⟩
  · intro α ops
    exact length_foldl_setCache_le ops [] (by simp [MAX_CACHE_SIZE])
  · intro α c k v now h
    exact length_setCache_le c k v now h
  · intro α c k t h
    exact ⟨minTsEntry_mem c k t h, minTsEntry_le c k t h⟩

/-- Witness for the amended C2 theorem at concrete inputs. -/
theorem setCache_ceiling_witness :
    (setCache [(navKey "000001", sampleNav, 5)] (navKey "000002") sampleNav 9).length
      ≤ MAX_CACHE_SIZE ∧
    (∃ v, (navKey "000001", v, (5 : Int)) ∈
        ([(navKey "000001", sampleNav, 5), (navKey "000002", sampleNav, 9)] :
          Cache FundNavData)) ∧
    ∀ e ∈ ([(navKey "000001", sampleNav, 5), (navKey "000002", sampleNav, 9)] :
        Cache FundNavData), (5 : Int) ≤ e.2.2 := by
  have h := setCache_ceiling_and_min_eviction
  refine ⟨h.2.1 FundNavData [(navKey "000001", sampleNav, 5)] (navKey "000002")
    sampleNav 9 (by decide), ?_, ?_⟩
  · exact (h.2.2 FundNavData
      [(navKey "000001", sampleNav, 5), (navKey "000002", sampleNav, 9)]
      (navKey "000001") 5 (by decide)).1
  · exact (h.2.2 FundNavData
      [(navKey "000001", sampleNav, 5), (navKey "000002", sampleNav, 9)]
      (navKey "000001") 5 (by decide)).2

/-- Claim C3: for a nav cache entry written with the service TTL (300 s):
a get_fund_nav issued strictly within the TTL returns the stored value,
leaves the state untouched, and invokes no adapter (empty trace); a
get_fund_nav issued at or after the TTL behaves exactly as a miss: the
expired entry is deleted and the fallback path (lines 1363-1393) runs. -/
theorem nav_cache_ttl_hit_and_miss (prod : Bool) (preferred : String)
    (behav : String → Outcome FundNavData) (randNav randChange : ℚ)
    (timeStr : String) (now t0 : Int) (code : String) (v : FundNavData)
    (st : NavState) (hfind : cacheFind st.cache (navKey code) = some (v, t0)) :
    (now - t0 < cacheTTL →
      getFundNav prod preferred behav randNav randChange timeStr now code st
        = (v, st, [])) ∧
    (cacheTTL ≤ now - t0 →
      getFundNav prod preferred behav randNav randChange timeStr now code st
        = getFundNavMiss prod preferred behav randNav randChange timeStr now code
            { st with cache := cacheErase st.cache (navKey code) }) := by
  constructor
  · intro h
    simp [getFundNav, getFromCache, hfind, if_pos h]
  · intro h
    have h2 : ¬ (now - t0 < cacheTTL) := not_lt.mpr h
    simp [getFundNav, getFromCache, hfind, h2]

/-- Witness for C3 at concrete inputs: age 100 s is a hit with no adapter
invoked; age 300 s runs the miss path on the emptied cache. -/
theorem nav_cache_ttl_witness :
    (getFundNav true "auto" (fun _ => Outcome.raised "down") 0 0 "" 100 "007339"
      ⟨[(navKey "007339", sampleNav, 0)], initStatus⟩
      = (sampleNav, ⟨[(navKey "007339", sampleNav, 0)], initStatus⟩, [])) ∧
    (getFundNav true "auto" (fun _ => Outcome.raised "down") 0 0 "" 300 "007339"
      ⟨[(navKey "007339", sampleNav, 0)], initStatus⟩
      = getFundNavMiss true "auto" (fun _ => Outcome.raised "down") 0 0 "" 300 "007339"
          ⟨[], initStatus⟩) := by
  have h := nav_cache_ttl_hit_and_miss true "auto" (fun _ => Outcome.raised "down")
    0 0 "" 100 0 "007339" sampleNav
    ⟨[(navKey "007339", sampleNav, 0)], initStatus⟩ rfl
  have h2 := nav_cache_ttl_hit_and_miss true "auto" (fun _ => Outcome.raised "down")
    0 0 "" 300 0 "007339" sampleNav
    ⟨[(navKey "007339", sampleNav, 0)], initStatus⟩ rfl
  exact ⟨h.1 (by decide), h2.2 (by decide)⟩

/-- Claim C5 counterexample: the first adapter returns an empty result
(and is invoked, as the trace shows), yet its error counter is not
incremented and no error timestamp is recorded -- the code only does
health bookkeeping for raised attempts, not for empty results. -/
theorem empty_result_skips_error_count :
    (getFundNav true "auto"
      (fun n => if n = "eastmoney" then Outcome.ret (some sampleNav)
                else Outcome.ret none) 0 0 "" 0 "007339" ⟨[], initStatus⟩).1
      = sampleNav ∧
    (getFundNav true "auto"
      (fun n => if n = "eastmoney" then Outcome.ret (some sampleNav)
                else Outcome.ret none) 0 0 "" 0 "007339" ⟨[], initStatus⟩).2.2
      = ["eastmoney_mobile", "eastmoney"] ∧
    ((getFundNav true "auto"
      (fun n => if n = "eastmoney" then Outcome.ret (some sampleNav)
                else Outcome.ret none) 0 0 "" 0 "007339"
      ⟨[], initStatus⟩).2.1.status "eastmoney_mobile").error_count = 0 ∧
    ((getFundNav true "auto"
      (fun n => if n = "eastmoney" then Outcome.ret (some sampleNav)
                else Outcome.ret none) 0 0 "" 0 "007339"
      ⟨[], initStatus⟩).2.1.status "eastmoney_mobile").last_error = none :=
  ⟨rfl, rfl, rfl, rfl⟩

/-- Claim C7: with the production source order [eastmoney_mobile,
eastmoney, akshare], if the first adapter fails (raises or returns empty)
and the second succeeds with a non-empty result, get_fund_nav returns the
second adapter result and the third adapter is never invoked. -/
theorem fallback_skips_third_adapter
    (behav : String → Outcome FundNavData) (eA : String) (v : FundNavData)
    (randNav randChange : ℚ) (timeStr : String) (now : Int) (code : String)
    (st : NavState)
    (hmiss : cacheFind st.cache (navKey code) = none)
    (hA : behav "eastmoney_mobile" = Outcome.raised eA ∨
          behav "eastmoney_mobile" = Outcome.ret none)
    (hB : behav "eastmoney" = Outcome.ret (some v)) :
    (getFundNav true "auto" behav randNav randChange timeStr now code st).1 = v ∧
    (getFundNav true "auto" behav randNav randChange timeStr now code st).2.2
      = ["eastmoney_mobile", "eastmoney"] ∧
    "akshare" ∉ (getFundNav true "auto" behav randNav randChange timeStr now code st).2.2 := by
  rcases hA with hA | hA <;>
    simp [getFundNav, getFromCache, hmiss, getFundNavMiss, getSourceOrder,
      navLoop, callSource, sourceNames, hA, hB]

/-- Witness for C7 at concrete inputs. -/
theorem fallback_skips_third_witness :
    (getFundNav true "auto"
      (fun n => if n = "eastmoney" then Outcome.ret (some sampleNav)
                else Outcome.raised "timeout") 0 0 "" 0 "007339"
      ⟨[], initStatus⟩).1 = sampleNav ∧
    (getFundNav true "auto"
      (fun n => if n = "eastmoney" then Outcome.ret (some sampleNav)
                else Outcome.raised "timeout") 0 0 "" 0 "007339"
      ⟨[], initStatus⟩).2.2 = ["eastmoney_mobile", "eastmoney"] := by
  have h := fallback_skips_third_adapter
    (fun n => if n = "eastmoney" then Outcome.ret (some sampleNav)
              else Outcome.raised "timeout") "timeout" sampleNav 0 0 "" 0 "007339"
    ⟨[], initStatus⟩ rfl (Or.inl rfl) rfl
  exact ⟨h.1, h.2.1⟩

/-- Claim C10 counterexample: an intraday-series entry written at time 0
is read again 120 seconds later -- more than the claimed 60-second TTL --
and is still served from the cache (no adapter invoked): the direct write
at line 1556 stores a plain timestamp that _get_from_cache checks against
the global 300-second TTL, so the 60-second comment is not what the code
does. -/
theorem intraday_stale_entry_still_hit :
    getIntradayValuation true "auto" (fun _ => Outcome.raised "down") 120 "110011"
      ((getIntradayValuation true "auto" (fun _ => Outcome.ret (some ())) 0 "110011"
        ([] : Cache Unit)).2.1)
      = (some (), [(intradayKey "110011", (), 0)], []) := by
  decide

/-- Claim C5 (amended): at each step of the get_fund_nav fallback loop
over a real (non-mock) adapter: a non-empty success records
last_success = now, status "ok", a reset counter, and stops the loop; a
raised attempt records last_error, increments the counter (flipping the
status to "error" at three), and continues to the next adapter; an EMPTY
result continues to the next adapter with no health-state change at all. -/
theorem nav_attempt_health_update
    (behav : String → Outcome FundNavData) (randNav randChange : ℚ)
    (timeStr code : String) (now : Int) (name : String) (rest : List String)
    (m : StatusMap) (hmem : name ∈ sourceNames) (hmock : name ≠ "mock") :
    (∀ v, behav name = Outcome.ret (some v) →
      navLoop behav randNav randChange timeStr code now (name :: rest) m
        = (some v, recordSuccess m name now, [name]) ∧
      recordSuccess m name now name
        = { m name with last_success := some now, status := "ok", error_count := 0 }) ∧
    (∀ e, behav name = Outcome.raised e →
      navLoop behav randNav randChange timeStr code now (name :: rest) m
        = ((navLoop behav randNav randChange timeStr code now rest (recordFailure m name e)).1,
           (navLoop behav randNav randChange timeStr code now rest (recordFailure m name e)).2.1,
           name :: (navLoop behav randNav randChange timeStr code now rest (recordFailure m name e)).2.2) ∧
      recordFailure m name e name
        = { m name with
            last_error := some e
            error_count := (m name).error_count + 1
            status := if 3 ≤ (m name).error_count + 1 then "error" else (m name).status }) ∧
    (behav name = Outcome.ret none →
      navLoop behav randNav randChange timeStr code now (name :: rest) m
        = ((navLoop behav randNav randChange timeStr code now rest m).1,
           (navLoop behav randNav randChange timeStr code now rest m).2.1,
           name :: (navLoop behav randNav randChange timeStr code now rest m).2.2)) := by
  refine ⟨?_, ?_, ?_⟩
  · intro v hv
    constructor
    · simp [navLoop, hmem, callSource, hmock, hv]
    · simp [recordSuccess]
  · intro e he
    constructor
    · simp [navLoop, hmem, callSource, hmock, he]
    · simp [recordFailure]
  · intro he
    simp [navLoop, hmem, callSource, hmock, he]

/-- Witness for the amended C5 theorem: a successful akshare attempt
stops the loop with the success bookkeeping applied. -/
theorem nav_attempt_health_witness :
    navLoop (fun _ => Outcome.ret (some sampleNav)) 0 0 "" "007339" 7 ["akshare"]
        initStatus
      = (some sampleNav, recordSuccess initStatus "akshare" 7, ["akshare"]) ∧
    recordSuccess initStatus "akshare" 7 "akshare"
      = { initStatus "akshare" with
          last_success := some 7, status := "ok", error_count := 0 } := by
  have h := nav_attempt_health_update (fun _ => Outcome.ret (some sampleNav)) 0 0 ""
    "007339" 7 "akshare" [] initStatus (by decide) (by decide)
  exact h.1 sampleNav rfl

/-- Claim C6: starting from the initial health state, three consecutive
get_fund_nav calls in which every real adapter raises leave the named
adapter with status "error" and error_count 3; one further call in which
that adapter succeeds (those before it still raising) returns its value
and immediately restores status "ok" with the counter reset to zero. -/
theorem three_failures_error_then_ok
    (name : String) (hname : name ∈ realSourceNames)
    (e1 e2 e3 e0 : String) (v : FundNavData) :
    (((getFundNav true "auto" (fun _ => Outcome.raised e3) 0 0 "" 0 "000300"
        (getFundNav true "auto" (fun _ => Outcome.raised e2) 0 0 "" 0 "000300"
          (getFundNav true "auto" (fun _ => Outcome.raised e1) 0 0 "" 0 "000300"
            ⟨[], initStatus⟩).2.1).2.1).2.1.status name).status = "error" ∧
     ((getFundNav true "auto" (fun _ => Outcome.raised e3) 0 0 "" 0 "000300"
        (getFundNav true "auto" (fun _ => Outcome.raised e2) 0 0 "" 0 "000300"
          (getFundNav true "auto" (fun _ => Outcome.raised e1) 0 0 "" 0 "000300"
            ⟨[], initStatus⟩).2.1).2.1).2.1.status name).error_count = 3) ∧
    ((getFundNav true "auto"
        (fun n => if n = name then Outcome.ret (some v) else Outcome.raised e0)
        0 0 "" 0 "000300"
        (getFundNav true "auto" (fun _ => Outcome.raised e3) 0 0 "" 0 "000300"
          (getFundNav true "auto" (fun _ => Outcome.raised e2) 0 0 "" 0 "000300"
            (getFundNav true "auto" (fun _ => Outcome.raised e1) 0 0 "" 0 "000300"
              ⟨[], initStatus⟩).2.1).2.1).2.1).1 = v ∧
     ((getFundNav true "auto"
        (fun n => if n = name then Outcome.ret (some v) else Outcome.raised e0)
        0 0 "" 0 "000300"
        (getFundNav true "auto" (fun _ => Outcome.raised e3) 0 0 "" 0 "000300"
          (getFundNav true "auto" (fun _ => Outcome.raised e2) 0 0 "" 0 "000300"
            (getFundNav true "auto" (fun _ => Outcome.raised e1) 0 0 "" 0 "000300"
              ⟨[], initStatus⟩).2.1).2.1).2.1).2.1.status name).status = "ok" ∧
     ((getFundNav true "auto"
        (fun n => if n = name then Outcome.ret (some v) else Outcome.raised e0)
        0 0 "" 0 "000300"
        (getFundNav true "auto" (fun _ => Outcome.raised e3) 0 0 "" 0 "000300"
          (getFundNav true "auto" (fun _ => Outcome.raised e2) 0 0 "" 0 "000300"
            (getFundNav true "auto" (fun _ => Outcome.raised e1) 0 0 "" 0 "000300"
              ⟨[], initStatus⟩).2.1).2.1).2.1).2.1.status name).error_count = 0) := by
  simp only [realSourceNames, List.mem_cons, List.mem_singleton,
    List.not_mem_nil, or_false] at hname
  rcases hname with h | h | h <;> subst h <;>
    simp [getFundNav, getFromCache, cacheFind, getFundNavMiss, getSourceOrder,
      navLoop, callSource, sourceNames, recordFailure, recordSuccess, initStatus,
      navKey, setCache, cacheAssign, minTsEntry]

/-- Witness for C6 at the concrete adapter eastmoney. -/
theorem three_failures_error_then_ok_witness :
    (((getFundNav true "auto" (fun _ => Outcome.raised "x3") 0 0 "" 0 "000300"
        (getFundNav true "auto" (fun _ => Outcome.raised "x2") 0 0 "" 0 "000300"
          (getFundNav true "auto" (fun _ => Outcome.raised "x1") 0 0 "" 0 "000300"
            ⟨[], initStatus⟩).2.1).2.1).2.1.status "eastmoney").status = "error" ∧
     ((getFundNav true "auto"
        (fun n => if n = "eastmoney" then Outcome.ret (some sampleNav)
                  else Outcome.raised "x0") 0 0 "" 0 "000300"
        (getFundNav true "auto" (fun _ => Outcome.raised "x3") 0 0 "" 0 "000300"
          (getFundNav true "auto" (fun _ => Outcome.raised "x2") 0 0 "" 0 "000300"
            (getFundNav true "auto" (fun _ => Outcome.raised "x1") 0 0 "" 0 "000300"
              ⟨[], initStatus⟩).2.1).2.1).2.1).2.1.status "eastmoney").status = "ok") := by
  have h := three_failures_error_then_ok "eastmoney" (by decide) "x1" "x2" "x3" "x0"
    sampleNav
  exact ⟨h.1.1, h.2.2.1⟩

/-- Claim C8: for a batch valuation request [a, b, c] where a is freshly
cached and b, c are not, the cached value of a is returned without any
adapter invocation for a, and exactly one batch adapter call is issued,
covering exactly the missing codes [b, c]; no per-code calls are made. -/
theorem batch_single_call_for_missing
    (bbehav : String → List String → Except String (List (String × Option FundNavData)))
    (randF : String → ℚ × ℚ) (timeStr : String) (now tA : Int)
    (a b c : String) (vA vB vC : FundNavData) (cc : Cache FundNavData)
    (ha : cacheFind cc (navKey a) = some (vA, tA)) (hfresh : now - tA < cacheTTL)
    (hb : cacheFind cc (navKey b) = none) (hc : cacheFind cc (navKey c) = none)
    (hbc : b ≠ c)
    (hbatch : bbehav "eastmoney_mobile" [b, c]
      = Except.ok [(b, some vB), (c, some vC)]) :
    (getFundsNav true "auto" bbehav randF timeStr now [a, b, c] cc).1
      = [(a, some vA), (b, some vB), (c, some vC)] ∧
    (getFundsNav true "auto" bbehav randF timeStr now [a, b, c] cc).2.2
      = [("eastmoney_mobile", [b, c])] := by
  have hab : a ≠ b := by
    intro h
    rw [h, hb] at ha
    exact Option.noConfusion ha
  have hac : a ≠ c := by
    intro h
    rw [h, hc] at ha
    exact Option.noConfusion ha
  constructor <;>
    simp [getFundsNav, scanCache, getFromCache, ha, hb, hc, hfresh, batchRounds,
      getSourceOrder, sourceNames, hbatch, applyBatch, removeCode, assocSet,
      assocFind, hab, hac, hbc]

/-- Witness for C8 at concrete inputs. -/
theorem batch_single_call_witness :
    (getFundsNav true "auto"
      (fun n _ => if n = "eastmoney_mobile"
        then Except.ok [("B02", some sampleNav), ("C03", some sampleNav)]
        else Except.error "down") (fun _ => (0, 0)) "" 10 ["A01", "B02", "C03"]
      [(navKey "A01", sampleNav, 0)]).1
      = [("A01", some sampleNav), ("B02", some sampleNav), ("C03", some sampleNav)] ∧
    (getFundsNav true "auto"
      (fun n _ => if n = "eastmoney_mobile"
        then Except.ok [("B02", some sampleNav), ("C03", some sampleNav)]
        else Except.error "down") (fun _ => (0, 0)) "" 10 ["A01", "B02", "C03"]
      [(navKey "A01", sampleNav, 0)]).2.2
      = [("eastmoney_mobile", ["B02", "C03"])] := by
  have h := batch_single_call_for_missing
    (fun n _ => if n = "eastmoney_mobile"
      then Except.ok [("B02", some sampleNav), ("C03", some sampleNav)]
      else Except.error "down") (fun _ => (0, 0)) "" 10 0 "A01" "B02" "C03"
    sampleNav sampleNav sampleNav [(navKey "A01", sampleNav, 0)]
    rfl (by decide) rfl rfl (by decide) rfl
  exact h

/-- Claim C9 counterexample: on a refused connection -- an unrecoverable
condition in the claim's sense -- both eastmoney adapters return the
ordinary empty result (None) instead of propagating an error, and the
same happens on a malformed response: the orchestrator cannot tell
"nothing to show" from "this adapter is broken". -/
theorem adapter_swallows_unrecoverable :
    emGetFundNavRun "110011" (EmResp.connError "connection refused")
      = Except.ok none ∧
    emGetFundNavRun "110011" (EmResp.malformed "invalid json") = Except.ok none ∧
    emMobileGetFundNavRun "110011" (MobResp.connError "connection refused")
      = Except.ok none ∧
    emMobileGetFundNavRun "110011" (MobResp.malformed "invalid json")
      = Except.ok none :=
  ⟨rfl, rfl, rfl, rfl⟩

/-- Claim C9 (amended): the eastmoney adapter fetches never propagate an
error: every call returns normally, no-data and unrecoverable upstream
conditions alike produce an empty result (None), and only a well-formed
payload produces a value, tagged with the adapter name. -/
theorem adapter_never_propagates :
    (∀ (code : String) (resp : EmResp),
      ∃ r, emGetFundNavRun code resp = Except.ok r) ∧
    (∀ (code e : String), emGetFundNavRun code (EmResp.connError e) = Except.ok none) ∧
    (∀ (code e : String), emGetFundNavRun code (EmResp.malformed e) = Except.ok none) ∧
    (∀ (code : String), emGetFundNavRun code EmResp.noMatch = Except.ok none) ∧
    (∀ (code : String) (p : EmPayload),
      ∃ d, emGetFundNavRun code (EmResp.payload p) = Except.ok (some d) ∧
        d.source = "eastmoney") ∧
    (∀ (code : String) (resp : MobResp),
      ∃ r, emMobileGetFundNavRun code resp = Except.ok r) ∧
    (∀ (code e : String),
      emMobileGetFundNavRun code (MobResp.connError e) = Except.ok none) ∧
    (∀ (code e : String),
      emMobileGetFundNavRun code (MobResp.malformed e) = Except.ok none) ∧
    (∀ (code : String), emMobileGetFundNavRun code MobResp.noDatas = Except.ok none) ∧
    (∀ (code : String) (p : MobPayload),
      ∃ d, emMobileGetFundNavRun code (MobResp.payload p) = Except.ok (some d) ∧
        d.source = "eastmoney_mobile") := by
  refine ⟨fun code resp => ⟨_, rfl⟩, fun code e => rfl, fun code e => rfl,
    fun code => rfl, fun code p => ⟨_, rfl, rfl⟩, fun code resp => ⟨_, rfl⟩,
    fun code e => rfl, fun code e => rfl, fun code => rfl,
    fun code p => ⟨_, rfl, rfl⟩⟩

/-- Claim C10 (amended): freshness by query type as the code actually
behaves. The write paths store: intraday entries with the plain write
time, historical and yield entries with write time + 3600, diagnostic
entries with write time + 86400; _get_from_cache then applies the single
300-second TTL to the stored stamp. Hence an entry written at t0 is fresh
until t0 + 300 (intraday -- the 60-second comment is not enforced),
t0 + 3900 (historical and yield), and t0 + 86700 (diagnostic, about 24
hours); live valuation entries written via _set_cache keep the plain
300-second window. At or past the window the call behaves as a miss. -/
theorem ttl_by_query_type {α : Type} (v : α) (w : FundNavData) (t0 now : Int)
    (code rt : String) (bf : String → Outcome α)
    (bw : String → Outcome FundNavData) (m : StatusMap) :
    ((getIntradayValuation true "auto" (fun _ => Outcome.ret (some v)) t0 code
        ([] : Cache α)).2.1 = [(intradayKey code, v, t0)]) ∧
    ((getHistoricalNav true "auto" (fun _ => Outcome.ret (some v)) t0 code rt
        ([] : Cache α)).2.1 = [(histKey code rt, v, t0 + 3600)]) ∧
    ((getHistoricalYield true "auto" (fun _ => Outcome.ret (some v)) t0 code rt
        ([] : Cache α)).2.1 = [(yieldKey code rt, v, t0 + 3600)]) ∧
    ((getFundDiagnostic true "auto" (fun _ => Outcome.ret (some v)) t0 code
        ([] : Cache α)).2.1 = [(diagKey code, v, t0 + 86400)]) ∧
    (now - t0 < 300 →
      getIntradayValuation true "auto" bf now code [(intradayKey code, v, t0)]
        = (some v, [(intradayKey code, v, t0)], [])) ∧
    (300 ≤ now - t0 →
      getIntradayValuation true "auto" bf now code [(intradayKey code, v, t0)]
        = intradayMiss true "auto" bf now code []) ∧
    (now - t0 < 3900 →
      getHistoricalNav true "auto" bf now code rt [(histKey code rt, v, t0 + 3600)]
        = (some v, [(histKey code rt, v, t0 + 3600)], [])) ∧
    (3900 ≤ now - t0 →
      getHistoricalNav true "auto" bf now code rt [(histKey code rt, v, t0 + 3600)]
        = historyMiss true "auto" bf now code rt []) ∧
    (now - t0 < 86700 →
      getFundDiagnostic true "auto" bf now code [(diagKey code, v, t0 + 86400)]
        = (some v, [(diagKey code, v, t0 + 86400)], [])) ∧
    (86700 ≤ now - t0 →
      getFundDiagnostic true "auto" bf now code [(diagKey code, v, t0 + 86400)]
        = diagnosticMiss true "auto" bf now code []) ∧
    (now - t0 < 300 →
      getFundNav true "auto" bw 0 0 "" now code ⟨[(navKey code, w, t0)], m⟩
        = (w, ⟨[(navKey code, w, t0)], m⟩, [])) := by
  refine ⟨rfl, rfl, rfl, rfl, ?_, ?_, ?_, ?_, ?_, ?_, ?_⟩
  · intro h
    simp [getIntradayValuation, getFromCache, cacheFind, cacheTTL, h]
  · intro h
    have h2 : ¬ (now - t0 < cacheTTL) := by simp [cacheTTL]; omega
    simp only [getIntradayValuation, getFromCache, cacheFind, if_pos rfl]
    simp [h2, cacheErase]
  · intro h
    have h2 : now - (t0 + 3600) < cacheTTL := by simp [cacheTTL]; omega
    simp [getHistoricalNav, getFromCache, cacheFind, h2]
  · intro h
    have h2 : ¬ (now - (t0 + 3600) < cacheTTL) := by simp [cacheTTL]; omega
    simp only [getHistoricalNav, getFromCache, cacheFind, if_pos rfl]
    simp [h2, cacheErase]
  · intro h
    have h2 : now - (t0 + 86400) < cacheTTL := by simp [cacheTTL]; omega
    simp [getFundDiagnostic, getFromCache, cacheFind, h2]
  · intro h
    have h2 : ¬ (now - (t0 + 86400) < cacheTTL) := by simp [cacheTTL]; omega
    simp only [getFundDiagnostic, getFromCache, cacheFind, if_pos rfl]
    simp [h2, cacheErase]
  · intro h
    have h2 : now - t0 < cacheTTL := by simp [cacheTTL]; omega
    simp [getFundNav, getFromCache, cacheFind, h2]

/-- Witness for the amended C10 theorem: an intraday entry written at 0 is
still fresh at 299; a historical entry stamped 3600 at write time 0 is
fresh at 3800 and a miss at 3900; a diagnostic entry is a miss at 86700. -/
theorem ttl_by_query_type_witness :
    ((getIntradayValuation true "auto" (fun _ => Outcome.ret (some ())) 0 "110011"
        ([] : Cache Unit)).2.1 = [(intradayKey "110011", (), 0)]) ∧
    (getIntradayValuation true "auto" (fun _ => Outcome.raised "down") 299 "110011"
        [(intradayKey "110011", (), 0)]
      = (some (), [(intradayKey "110011", (), 0)], [])) ∧
    (getHistoricalNav true "auto" (fun _ => Outcome.raised "down") 3800 "110011" "y"
        [(histKey "110011" "y", (), 3600)]
      = (some (), [(histKey "110011" "y", (), 3600)], [])) ∧
    (getHistoricalNav true "auto" (fun _ => Outcome.raised "down") 3900 "110011" "y"
        [(histKey "110011" "y", (), 3600)]
      = historyMiss true "auto" (fun _ => Outcome.raised "down") 3900 "110011" "y" []) ∧
    (getFundDiagnostic true "auto" (fun _ => Outcome.raised "down") 86700 "110011"
        [(diagKey "110011", (), 86400)]
      = diagnosticMiss true "auto" (fun _ => Outcome.raised "down") 86700 "110011" []) := by
  have h1 := ttl_by_query_type (α := Unit) () sampleNav 0 299 "110011" "y"
    (fun _ => Outcome.raised "down") (fun _ => Outcome.raised "down") initStatus
  have h2 := ttl_by_query_type (α := Unit) () sampleNav 0 3800 "110011" "y"
    (fun _ => Outcome.raised "down") (fun _ => Outcome.raised "down") initStatus
  have h3 := ttl_by_query_type (α := Unit) () sampleNav 0 3900 "110011" "y"
    (fun _ => Outcome.raised "down") (fun _ => Outcome.raised "down") initStatus
  have h4 := ttl_by_query_type (α := Unit) () sampleNav 0 86700 "110011" "y"
    (fun _ => Outcome.raised "down") (fun _ => Outcome.raised "down") initStatus
  exact ⟨h1.1, h1.2.2.2.2.1 (by decide), h2.2.2.2.2.2.2.1 (by decide),
    h3.2.2.2.2.2.2.2.1 (by decide), h4.2.2.2.2.2.2.2.2.2.1 (by decide)⟩
